import Mathlib

/-!
Shallow embedding of `src/pdf_a_excel.py` (a PDF→Excel conversion script).

Conventions of the embedding:
* Python strings are Lean `String`s; most functions work on `List Char` via `String.data`.
* Python `float` results are modelled as exact rationals (`ℚ`): the parsers in the
  source only ever build floats from short decimal literals, and the properties under
  study are about the parsing / normalisation logic, not IEEE rounding.
* Python exceptions are modelled with `Except`; a call into an external backend is a
  parameter of type `Except Err α` supplied by the environment.
* `pandas` DataFrames are modelled column-wise (a frame is a list of `Columna`),
  each column carrying a dtype tag and a list of cells.
* Python's `\d`, `int()` and `str.strip()` also accept non-ASCII digits and
  Unicode whitespace; the model restricts them to ASCII digits and ASCII
  whitespace, which covers every input the spec and claims mention.
-/

namespace PdfAExcel

/-- Python `str.strip()` restricted to the ASCII whitespace characters
`' '`, `'\t'`, `'\n'`, `'\r'`, `'\x0b'`, `'\x0c'`. -/
def esEspacio (c : Char) : Bool :=
  c = ' ' || c = '\t' || c = '\n' || c = '\r' || c = '\x0b' || c = '\x0c'

def pyStripL (l : List Char) : List Char :=
  ((l.dropWhile esEspacio).reverse.dropWhile esEspacio).reverse

def pyStrip (s : String) : String := ⟨pyStripL s.data⟩

def valorDigito (c : Char) : Nat := c.toNat - '0'.toNat

def digitosANat (l : List Char) : Nat := l.foldl (fun a c => 10 * a + valorDigito c) 0

def esSep (c : Char) : Bool := c = '/' || c = '-'

/-- The regex `_PATRON_FECHA = ^\d{1,2}[/\-]\d{1,2}[/\-]\d{2,4}$` as a full-match
test.  Maximal digit runs are equivalent to the greedy bounded quantifiers here
because each `\d` group is followed by a non-digit (separator or end). -/
def _PATRON_FECHA_match (l : List Char) : Bool :=
  let d1 := l.takeWhile Char.isDigit
  match l.dropWhile Char.isDigit with
  | s1 :: r2 =>
    let d2 := r2.takeWhile Char.isDigit
    match r2.dropWhile Char.isDigit with
    | s2 :: r4 =>
      let d3 := r4.takeWhile Char.isDigit
      decide (1 ≤ d1.length ∧ d1.length ≤ 2) && esSep s1 &&
      decide (1 ≤ d2.length ∧ d2.length ≤ 2) && esSep s2 &&
      decide (2 ≤ d3.length ∧ d3.length ≤ 4) && (r4.dropWhile Char.isDigit).isEmpty
    | [] => false
  | [] => false

/-- A `strptime` format string, tokenised: `%c` becomes `dir c`, anything else `lit`. -/
inductive TokenFmt
  | lit (c : Char)
  | dir (c : Char)
deriving DecidableEq

def tokensDeFormato : List Char → Option (List TokenFmt)
  | [] => some []
  | '%' :: [] => none
  | '%' :: c :: r => (tokensDeFormato r).map (TokenFmt.dir c :: ·)
  | c :: r => (tokensDeFormato r).map (TokenFmt.lit c :: ·)

def esDigito19 (c : Char) : Bool := '1' ≤ c && c ≤ '9'

/-- The alternatives (in regex alternation order) that CPython's `_strptime`
regexes match for each directive used by this program:
`%d ↦ 3[01]|[12]\d|0[1-9]|[1-9]`, `%m ↦ 1[0-2]|0[1-9]|[1-9]`,
`%y ↦ \d\d`, `%Y ↦ \d\d\d\d`.  Each entry pairs the numeric value of the
consumed digits with the remaining input. -/
def alternativasDir (c : Char) (l : List Char) : List (Nat × List Char) :=
  match c with
  | 'd' =>
    (match l with
     | a :: b :: r =>
       (if a = '3' && (b = '0' || b = '1') then [(digitosANat [a, b], r)] else []) ++
       (if (a = '1' || a = '2') && b.isDigit then [(digitosANat [a, b], r)] else []) ++
       (if a = '0' && esDigito19 b then [(digitosANat [a, b], r)] else [])
     | _ => []) ++
    (match l with
     | a :: r => if esDigito19 a then [(digitosANat [a], r)] else []
     | _ => [])
  | 'm' =>
    (match l with
     | a :: b :: r =>
       (if a = '1' && (b = '0' || b = '1' || b = '2') then [(digitosANat [a, b], r)] else []) ++
       (if a = '0' && esDigito19 b then [(digitosANat [a, b], r)] else [])
     | _ => []) ++
    (match l with
     | a :: r => if esDigito19 a then [(digitosANat [a], r)] else []
     | _ => [])
  | 'y' =>
    match l with
    | a :: b :: r => if a.isDigit && b.isDigit then [(digitosANat [a, b], r)] else []
    | _ => []
  | 'Y' =>
    match l with
    | a :: b :: c2 :: d :: r =>
      if a.isDigit && b.isDigit && c2.isDigit && d.isDigit then
        [(digitosANat [a, b, c2, d], r)]
      else []
    | _ => []
  | _ => []

/-- Backtracking full match of a token list against the input, returning the list of
directive assignments of every full match, in the regex engine's preference order. -/
def coincidirTokens : List TokenFmt → List Char → List (List (Char × Nat))
  | [], [] => [[]]
  | [], _ :: _ => []
  | TokenFmt.lit c :: ts, x :: xs => if x = c then coincidirTokens ts xs else []
  | TokenFmt.lit _ :: _, [] => []
  | TokenFmt.dir c :: ts, l =>
    ((alternativasDir c l).map (fun vr => (coincidirTokens ts vr.2).map ((c, vr.1) :: ·))).flatten

def esBisiesto (a : Nat) : Bool := a % 4 = 0 && (a % 100 ≠ 0 || a % 400 = 0)

def diasEnMes (a m : Nat) : Nat :=
  if m = 2 then (if esBisiesto a then 29 else 28)
  else if m = 4 || m = 6 || m = 9 || m = 11 then 30
  else 31

structure Fecha where
  anio : Nat
  mes : Nat
  dia : Nat
deriving DecidableEq

def buscarValor (asig : List (Char × Nat)) (c : Char) : Option Nat :=
  (asig.find? (fun p => p.1 = c)).map (·.2)

/-- Building the datetime from the matched directive values, as CPython `_strptime`
does: `%y` maps to `2000+y` for `y ≤ 68` and `1900+y` otherwise; missing fields
default to year 1900, month 1, day 1; the final `datetime(year, month, day)`
constructor raises (here: `none`) when the day exceeds the month length or the year
leaves `1..9999`. -/
def construirFecha (asig : List (Char × Nat)) : Option Fecha :=
  let anio :=
    match buscarValor asig 'Y' with
    | some a => a
    | none =>
      match buscarValor asig 'y' with
      | some y => if y ≤ 68 then 2000 + y else 1900 + y
      | none => 1900
  let mes := (buscarValor asig 'm').getD 1
  let dia := (buscarValor asig 'd').getD 1
  if 1 ≤ anio ∧ anio ≤ 9999 ∧ 1 ≤ mes ∧ mes ≤ 12 ∧ 1 ≤ dia ∧ dia ≤ diasEnMes anio mes then
    some ⟨anio, mes, dia⟩
  else none

/-- `datetime.strptime(s, fmt)` restricted to the directives this program uses;
`none` models the `ValueError` that the caller catches. -/
def strptimeFecha (s fmt : String) : Option Fecha := do
  let toks ← tokensDeFormato fmt.data
  let asig ← (coincidirTokens toks s.data).head?
  construirFecha asig

/-- `_FORMATOS_FECHA` from the source, in order. -/
def _FORMATOS_FECHA : List String :=
  ["%d/%m/%Y", "%m/%d/%Y", "%d-%m-%Y", "%m-%d-%Y",
   "%d/%m/%y", "%m/%d/%y", "%d-%m-%y", "%m-%d-%y",
   "%Y-%m-%d", "%Y/%m/%d"]

def primeroAlguno {α : Type} : List (Option α) → Option α
  | [] => none
  | some a :: _ => some a
  | none :: r => primeroAlguno r

/-- `_parsear_fecha`: strip, gate on `_PATRON_FECHA`, then try the formats in order,
returning the first successful parse. -/
def _parsear_fecha (val : String) : Option Fecha :=
  let v := pyStrip val
  if _PATRON_FECHA_match v.data then
    primeroAlguno (_FORMATOS_FECHA.map (strptimeFecha v))
  else none

example : _parsear_fecha "03/04/2024" = some ⟨2024, 4, 3⟩ := by decide
example : _parsear_fecha "2024-03-04" = none := by decide
example : _parsear_fecha "31/02/2024" = none := by decide
example : _parsear_fecha "20-03-04" = some ⟨2004, 3, 20⟩ := by decide
example : _parsear_fecha " 7/8/99 " = some ⟨1999, 8, 7⟩ := by decide
example : _parsear_fecha "hola" = none := by decide
example : _parsear_fecha "12/31/2024" = some ⟨2024, 12, 31⟩ := by decide

/-! ## Number detector (`_parsear_numero`) -/

def esDigitoOComa (c : Char) : Bool := c.isDigit || c = ','

def esDigitoOPunto (c : Char) : Bool := c.isDigit || c = '.'

def quitarSigno : List Char → List Char
  | '-' :: r => r
  | l => l

/-- Full match of `^-?[\d,]+\.\d+$` (American thousands format). -/
def formatoAmericano (l : List Char) : Bool :=
  let r := quitarSigno l
  let run := r.takeWhile esDigitoOComa
  match r.dropWhile esDigitoOComa with
  | '.' :: resto => !run.isEmpty && !resto.isEmpty && resto.all Char.isDigit
  | _ => false

/-- Full match of `^-?[\d.]+,\d+$` (European thousands format). -/
def formatoEuropeo (l : List Char) : Bool :=
  let r := quitarSigno l
  let run := r.takeWhile esDigitoOPunto
  match r.dropWhile esDigitoOPunto with
  | ',' :: resto => !run.isEmpty && !resto.isEmpty && resto.all Char.isDigit
  | _ => false

/-- Full match of `^-?[\d,]+$` (comma-grouped integer, before the `","` test). -/
def formatoEnteroComas (l : List Char) : Bool :=
  let r := quitarSigno l
  !r.isEmpty && r.all esDigitoOComa

/-- Full match of `^-?\d+\.?\d*$` (plain number). -/
def formatoSimple (l : List Char) : Bool :=
  let r := quitarSigno l
  let ent := r.takeWhile Char.isDigit
  match r.dropWhile Char.isDigit with
  | [] => !ent.isEmpty
  | '.' :: resto => !ent.isEmpty && resto.all Char.isDigit
  | _ => false

/-- The exact value of a parsed Python float, kept as a decimal mantissa and a
power-of-ten denominator (the parsers only ever build floats from short decimal
literals, so the exact rational is the faithful value; IEEE rounding is not
modelled). -/
structure Decimal where
  mantisa : Int
  exp : Nat
deriving DecidableEq

/-- The rational value a `Decimal` denotes. -/
def Decimal.valor (d : Decimal) : ℚ := (d.mantisa : ℚ) / (10 : ℚ) ^ d.exp

/-- Whether the float equals its own truncation (`val == int(val)` in the source). -/
def Decimal.esEntero (d : Decimal) : Bool := d.mantisa % ((10 : Int) ^ d.exp) = 0

/-- Python `float(s)` on the strings that reach it inside `_parsear_numero` (an
optional leading `'-'`, digits, at most one `'.'`): the exact decimal denoted, or
`none` for the `ValueError` on an empty mantissa (`""`, `"-"`, `"."`, `"-."`, `","`
after separator removal, ...). -/
def floatDeCadena (l : List Char) : Option Decimal :=
  let neg := l.head? = some '-'
  let r := quitarSigno l
  let ent := r.takeWhile Char.isDigit
  match r.dropWhile Char.isDigit with
  | [] =>
    if ent.isEmpty then none
    else
      let m : Int := digitosANat ent
      some ⟨if neg then -m else m, 0⟩
  | '.' :: fr =>
    if fr.all Char.isDigit then
      if ent.isEmpty && fr.isEmpty then none
      else
        let m : Int := digitosANat ent * 10 ^ fr.length + digitosANat fr
        some ⟨if neg then -m else m, fr.length⟩
    else none
  | _ => none

/-- `_parsear_numero`: strip, delete inner `' '`, classify by the four anchored
regexes in source order, normalise separators, and call `float`; a branch whose
`float` raises returns `None` without falling through to later branches. -/
def _parsear_numero (val : String) : Option Decimal :=
  let v0 := pyStripL val.data
  if v0.isEmpty then none
  else
    let v := v0.filter (fun c => c ≠ ' ')
    if formatoAmericano v then floatDeCadena (v.filter (fun c => c ≠ ','))
    else if formatoEuropeo v then
      floatDeCadena ((v.filter (fun c => c ≠ '.')).map (fun c => if c = ',' then '.' else c))
    else if formatoEnteroComas v && v.contains ',' then floatDeCadena (v.filter (fun c => c ≠ ','))
    else if formatoSimple v then floatDeCadena v
    else none

example : _parsear_numero "1,234.56" = some ⟨123456, 2⟩ := by decide
example : _parsear_numero "1.234,56" = some ⟨123456, 2⟩ := by decide
example : _parsear_numero "140,000" = some ⟨140000, 3⟩ := by decide
example : _parsear_numero "1,234,567" = some ⟨1234567, 0⟩ := by decide
example : _parsear_numero "42.5" = some ⟨425, 1⟩ := by decide
example : _parsear_numero "abc" = none := by decide
example : _parsear_numero "12a3" = none := by decide
example : _parsear_numero "," = none := by decide
example : _parsear_numero "-1 234,5" = some ⟨-12345, 1⟩ := by decide
example : _parsear_numero "" = none := by decide
example : _parsear_numero "-42" = some ⟨-42, 0⟩ := by decide
example : (Decimal.valor ⟨123456, 2⟩) = 1234.56 := by norm_num [Decimal.valor]

/-! ## Page range resolver (`parse_rango_paginas`) -/

deriving instance DecidableEq for Except

/-- Python `int(s)` on the strings this program feeds it: optional surrounding
whitespace, optional sign, then decimal digits; `none` models `ValueError`.
(Digit-group underscores, accepted by Python since 3.6, are not modelled: no
spec-level selector contains them.) -/
def intDeCadena (l : List Char) : Option Int :=
  match pyStripL l with
  | [] => none
  | c :: resto =>
    if c = '-' then
      if !resto.isEmpty && resto.all Char.isDigit then some (-(digitosANat resto : Int))
      else none
    else if c = '+' then
      if !resto.isEmpty && resto.all Char.isDigit then some (digitosANat resto : Int)
      else none
    else if (c :: resto).all Char.isDigit then some (digitosANat (c :: resto) : Int)
    else none

/-- Python `range(a, b + 1)` as a list of `Int`. -/
def rangoInt (a b : Int) : List Int := (List.range (b + 1 - a).toNat).map (fun i => a + i)

/-- Python `s.split(sep)` for a one-character separator. -/
def splitEn (sep : Char) : List Char → List (List Char)
  | [] => [[]]
  | c :: r =>
    let resto := splitEn sep r
    if c = sep then [] :: resto
    else
      match resto with
      | h :: t => (c :: h) :: t
      | [] => [[c]]

/-- `str.lower()` on ASCII. -/
def minusculas (l : List Char) : List Char :=
  l.map (fun c => if 'A' ≤ c && c ≤ 'Z' then Char.ofNat (c.toNat + 32) else c)

/-- Inserting one index into the page-index set.  The Python original accumulates a
`set` and sorts it once at the end; the model keeps the set as a sorted,
duplicate-free list throughout, which yields the same final list. -/
def insertarOrdenado (p : Int) : List Int → List Int
  | [] => [p]
  | q :: r =>
    if p < q then p :: q :: r
    else if p = q then q :: r
    else q :: insertarOrdenado p r

/-- One iteration of the `for parte in paginas_str.split(",")` loop: range parts are
split at the first `'-'`; every page `p` with `1 <= p <= total` contributes index
`p - 1` to the set; a part `int()` cannot read raises `ValueError` (`.error ()`). -/
def procesarParte (total : Nat) (acc : List Int) (parte0 : List Char) :
    Except Unit (List Int) :=
  if (pyStripL parte0).contains '-' then
    match intDeCadena ((pyStripL parte0).takeWhile (fun c => c ≠ '-')),
          intDeCadena (((pyStripL parte0).dropWhile (fun c => c ≠ '-')).tail) with
    | some a, some b =>
      .ok ((rangoInt a b).foldl
        (fun s p => if 1 ≤ p ∧ p ≤ (total : Int) then insertarOrdenado (p - 1) s else s) acc)
    | _, _ => .error ()
  else
    match intDeCadena (pyStripL parte0) with
    | some p => .ok (if 1 ≤ p ∧ p ≤ (total : Int) then insertarOrdenado (p - 1) acc else acc)
    | none => .error ()

/-- `parse_rango_paginas`: `"all"` (stripped, lowered) short-circuits to all pages;
otherwise the comma-separated parts accumulate a set of zero-based indices which is
returned sorted. -/
def parse_rango_paginas (paginas_str : String) (total_paginas : Nat) : Except Unit (List Int) :=
  if minusculas (pyStripL paginas_str.data) = "all".data then
    .ok ((List.range total_paginas).map (fun i : Nat => (i : Int)))
  else
    (splitEn ',' paginas_str.data).foldlM (procesarParte total_paginas) []

example : parse_rango_paginas "all" 3 = .ok [0, 1, 2] := by decide
example : parse_rango_paginas " ALL " 2 = .ok [0, 1] := by decide
example : parse_rango_paginas "3,1,3" 5 = .ok [0, 2] := by decide
example : parse_rango_paginas "2-4,1" 10 = .ok [0, 1, 2, 3] := by decide
example : parse_rango_paginas "7,2" 5 = .ok [1] := by decide
example : parse_rango_paginas "x" 5 = .error () := by decide
example : parse_rango_paginas "5-3" 9 = .ok [] := by decide

/-! ## DataFrame model and `auto_convertir_tipos` -/

/-- A cell of an extracted DataFrame column. -/
inductive Celda
  | nula
  | texto (s : String)
  | fecha (f : Fecha)
  | numero (d : Decimal)
deriving DecidableEq

/-- The pandas dtypes the program distinguishes: `object` (text) columns are the
only ones `auto_convertir_tipos` touches; a promoted date column gets
`datetime64[ns]` from `pd.to_datetime`; a promoted numeric column gets `float64`
(the `apply` result holds at least one float and otherwise `None`, which pandas
stores as `NaN`); anything else is non-text. -/
inductive Dtype
  | objectD
  | datetime64
  | float64
  | otro
deriving DecidableEq

structure Columna where
  nombre : String
  dtype : Dtype
  celdas : List Celda
deriving DecidableEq

/-- `Series.astype(str)` on one cell: `NaN` prints as `"nan"`.  Extraction only ever
builds `object` columns out of strings and nulls; the date/number cases are given a
printable form for totality but are never reached by the pipeline. -/
def celdaComoCadena : Celda → String
  | Celda.nula => "nan"
  | Celda.texto s => s
  | Celda.fecha f => toString f.anio ++ "-" ++ toString f.mes ++ "-" ++ toString f.dia
  | Celda.numero d => toString d.mantisa ++ "e-" ++ toString d.exp

/-- `muestra`: drop the nulls, then keep the values whose string form is non-blank
(the values are compared through `astype(str)`, so the sample is kept as strings). -/
def muestra (celdas : List Celda) : List String :=
  ((celdas.filter (fun c => c ≠ Celda.nula)).map celdaComoCadena).filter
    (fun s => pyStripL s.data ≠ [])

def cuentaFechas (m : List String) : Nat :=
  (m.filter (fun s => (_parsear_fecha s).isSome)).length

def cuentaNumeros (m : List String) : Nat :=
  (m.filter (fun s => (_parsear_numero s).isSome)).length

/-- The per-cell date conversion
`lambda x: _parsear_fecha(x) if pd.notna(x) and str(x).strip() else None` applied
after `astype(str)` (no cell is NA after `astype(str)`; nulls have become `"nan"`,
which fails the date shape and parses to `None`). -/
def celdaAFecha (c : Celda) : Celda :=
  let s := celdaComoCadena c
  if pyStripL s.data ≠ [] then
    match _parsear_fecha s with
    | some f => Celda.fecha f
    | none => Celda.nula
  else Celda.nula

/-- The analogous per-cell number conversion lambda. -/
def celdaANumero (c : Celda) : Celda :=
  let s := celdaComoCadena c
  if pyStripL s.data ≠ [] then
    match _parsear_numero s with
    | some d => Celda.numero d
    | none => Celda.nula
  else Celda.nula

/-- `pd.Timestamp` is a 64-bit nanosecond count, so midnight timestamps exist
exactly for 1677-09-22 ≤ date ≤ 2262-04-11. -/
def fechaClave (f : Fecha) : Nat := f.anio * 10000 + f.mes * 100 + f.dia

def fechaEnLimitesNs (f : Fecha) : Bool :=
  16770922 ≤ fechaClave f && fechaClave f ≤ 22620411

/-- `pd.to_datetime(serie, errors="coerce")` on the column the date branch builds:
`None` becomes `NaT` (modelled as `nula`) and a `datetime` outside the nanosecond
range is coerced to `NaT`; the column fed in holds only parse results and `None`,
so all other cases are unreachable and also map to `NaT`. -/
def coerceNs : Celda → Celda
  | Celda.fecha f => if fechaEnLimitesNs f then Celda.fecha f else Celda.nula
  | _ => Celda.nula

/-- The body of the per-column loop of `auto_convertir_tipos`.  The Python float
comparison `ratio >= 0.6` is modelled exactly over the rationals as
`10 * matches >= 6 * len(muestra)`; for sample sizes below `10^15` the double
rounding of `matches / len` and of the literal `0.6` never flips this comparison. -/
def convertirColumna (c : Columna) : Columna :=
  if c.dtype ≠ Dtype.objectD then c
  else
    let m := muestra c.celdas
    if m.isEmpty then c
    else
      let kf := cuentaFechas m
      if 10 * kf ≥ 6 * m.length ∧ 1 ≤ kf then
        { c with dtype := Dtype.datetime64,
                 celdas := c.celdas.map (fun x => coerceNs (celdaAFecha x)) }
      else
        let kn := cuentaNumeros m
        if 10 * kn ≥ 6 * m.length ∧ 1 ≤ kn then
          { c with dtype := Dtype.float64, celdas := c.celdas.map celdaANumero }
        else c

/-- `auto_convertir_tipos` as a value-level function on the (copied) frame. -/
def auto_convertir_tipos (df : List Columna) : List Columna := df.map convertirColumna

/-- `auto_convertir_tipos` at the Python heap level: `df = df.copy()` allocates a
fresh frame and every subsequent `df[col] = ...` writes to the copy.  The heap of
live frames is a list, a DataFrame reference is an index, and the call returns the
heap after the call together with a reference to the result. -/
def auto_convertir_tipos_ref (heap : List (List Columna)) (r : Nat) :
    List (List Columna) × Nat :=
  match heap[r]? with
  | some df => (heap ++ [auto_convertir_tipos df], heap.length)
  | none => (heap, r)

/-! ## Cell-level formatting (`_aplicar_formatos_hoja`, lines 419-454) -/

/-- A worksheet cell value after `to_excel`. -/
inductive ValorHoja
  | vacio
  | cadena (s : String)
  | fechaV (f : Fecha)
  | numeroV (d : Decimal)
deriving DecidableEq

/-- A worksheet cell after formatting: final value, `number_format`, alignment. -/
structure CeldaHoja where
  valor : ValorHoja
  number_format : Option String
  alignment : Option String
deriving DecidableEq

/-- The `--- Aplicar formato según tipo final ---` block: dates get the fixed
`DD/MM/YYYY` mask centred; ints and floats get thousands grouping, two decimals
exactly for a float with `val != int(val)`, right-aligned; anything else is left
untouched. -/
def aplicarFormatoTipo (v : ValorHoja) : CeldaHoja :=
  match v with
  | ValorHoja.fechaV _ => ⟨v, some "DD/MM/YYYY", some "center"⟩
  | ValorHoja.numeroV d =>
    ⟨v, some (if !d.esEntero then "#,##0.00" else "#,##0"), some "right"⟩
  | _ => ⟨v, none, none⟩

/-- The per-cell body of `_aplicar_formatos_hoja` for a non-header cell: `None` is
skipped; a non-blank string is tried as a date first and as a number only when the
date fails, the cell value being replaced on success; then the final type decides
the display format. -/
def formatearCelda (v : ValorHoja) : CeldaHoja :=
  match v with
  | ValorHoja.vacio => ⟨v, none, none⟩
  | ValorHoja.cadena s0 =>
    let s := pyStrip s0
    let v2 :=
      if s.data ≠ [] then
        match _parsear_fecha s with
        | some f => ValorHoja.fechaV f
        | none =>
          match _parsear_numero s with
          | some d => ValorHoja.numeroV d
          | none => v
      else v
    aplicarFormatoTipo v2
  | _ => aplicarFormatoTipo v

example : formatearCelda (ValorHoja.cadena "03/04/2024") =
    ⟨ValorHoja.fechaV ⟨2024, 4, 3⟩, some "DD/MM/YYYY", some "center"⟩ := by decide
example : formatearCelda (ValorHoja.cadena "1,234.56") =
    ⟨ValorHoja.numeroV ⟨123456, 2⟩, some "#,##0.00", some "right"⟩ := by decide
example : formatearCelda (ValorHoja.cadena "42.0") =
    ⟨ValorHoja.numeroV ⟨420, 1⟩, some "#,##0", some "right"⟩ := by decide
example : formatearCelda (ValorHoja.cadena "hola") =
    ⟨ValorHoja.cadena "hola", none, none⟩ := by decide
example : formatearCelda ValorHoja.vacio = ⟨ValorHoja.vacio, none, none⟩ := by decide

/-! ## Extraction backends (`extraer_tablas_tabula`, `extraer_tablas_pdfplumber`,
`extraer_texto`).  A call into an external library is modelled as an
environment-supplied `Except Unit …` value: `.error ()` is the library raising. -/

/-- One raw grid from `page.extract_tables()`: rows of optional strings. -/
abbrev TablaCruda := List (List (Option String))

/-- An extracted pandas DataFrame at the raw level: header names plus row-major
data. -/
structure DFCruda where
  columnas : List (Option String)
  filas : List (List (Option String))
deriving DecidableEq

/-- `df.empty`. -/
def DFCruda.vacia (df : DFCruda) : Bool := df.filas.isEmpty || df.columnas.isEmpty

/-- `extraer_tablas_tabula`: `tabula.read_pdf` either returns DataFrames or raises;
the surrounding `try/except Exception` turns any exception into `[]`, and a success
keeps the non-empty tables.  The function itself never raises. -/
def extraer_tablas_tabula (llamada : Except Unit (List DFCruda)) :
    Except Unit (List DFCruda) :=
  match llamada with
  | Except.ok tablas => Except.ok (tablas.filter (fun t => !t.vacia))
  | Except.error _ => Except.ok []

/-- `df.dropna(how="all", axis=0).dropna(how="all", axis=1)`: drop all-null rows,
then all-null columns (of what remains). -/
def dropnaTodas (df : DFCruda) : DFCruda :=
  let filas1 := df.filas.filter (fun f => !f.all (fun x => x = none))
  let mantener := (List.range df.columnas.length).filter
    (fun j => !filas1.all (fun f => f.getD j none = none))
  ⟨mantener.map (fun j => df.columnas.getD j none),
   filas1.map (fun f => mantener.map (fun j => f.getD j none))⟩

/-- Lines 252-262: a raw grid becomes a table when it is non-empty, has data rows
beyond the header, and survives dropping all-null rows and columns. -/
def procesarTablaCruda (raw : TablaCruda) : Option DFCruda :=
  match raw with
  | [] => none
  | header :: data =>
    if data.isEmpty then none
    else
      let df := dropnaTodas ⟨header, data⟩
      if df.vacia then none else some df

/-- `extraer_tablas_pdfplumber`: the whole body sits inside `try/except Exception`,
so the function never raises; a raising `pdfplumber.open` (modelled as
`apertura = .error ()`) yields the tables collected so far, i.e. `[]`, as does an
`int()` failure inside `parse_rango_paginas` (line 247, also under the `try`). -/
def extraer_tablas_pdfplumber (apertura : Except Unit (List (List TablaCruda)))
    (paginas_str : String) : Except Unit (List DFCruda) :=
  Except.ok
    (match apertura with
     | Except.error _ => []
     | Except.ok paginas =>
       match parse_rango_paginas paginas_str paginas.length with
       | Except.error _ => []
       | Except.ok idxs =>
         ((idxs.map (fun i => paginas.getD i.toNat [])).flatten).filterMap procesarTablaCruda)

inductive ModoTexto
  | linea
  | pagina
deriving DecidableEq

structure ArgsTexto where
  paginas : String
  modo_texto : ModoTexto
  sin_vacias : Bool
deriving DecidableEq

/-- One record of the text DataFrame (`Pagina`, optional `Linea`, `Texto`). -/
structure FilaTexto where
  pagina : Nat
  linea : Option Nat
  texto : String
deriving DecidableEq

/-- `extraer_texto`: the document is a list of per-page `extract_text()` results
(`none` models a page returning `None`, absorbed by `or ""`).  Nothing in this
function is inside a `try`, so a raising `pdfplumber.open` (modelled as
`apertura = .error ()`) and an `int()` failure inside `parse_rango_paginas`
propagate to the caller.  The optional `--separador` post-processing (lines
300-304), a pure reshaping of the built rows, is outside every claim and not
modelled. -/
def extraer_texto (apertura : Except Unit (List (Option String)))
    (args : ArgsTexto) : Except Unit (List FilaTexto) := do
  let paginasDoc ← apertura
  let idxs ← parse_rango_paginas args.paginas paginasDoc.length
  Except.ok (idxs.flatMap (fun i =>
    let texto := (paginasDoc.getD i.toNat none).getD ""
    match args.modo_texto with
    | ModoTexto.pagina => [⟨i.toNat + 1, none, texto⟩]
    | ModoTexto.linea =>
      let lineas := splitEn '\n' texto.data
      (List.range lineas.length).filterMap (fun n =>
        let linea := lineas.getD n []
        if args.sin_vacias && (pyStripL linea).isEmpty then none
        else some ⟨i.toNat + 1, some (n + 1), ⟨linea⟩⟩)))

example :
    extraer_texto (Except.ok [some "a\n\nb", none]) ⟨"all", ModoTexto.linea, true⟩ =
      Except.ok [⟨1, some 1, "a"⟩, ⟨1, some 3, "b"⟩] := by decide
example :
    extraer_texto (Except.ok [some "a\n\nb", none]) ⟨"all", ModoTexto.linea, false⟩ =
      Except.ok [⟨1, some 1, "a"⟩, ⟨1, some 2, ""⟩, ⟨1, some 3, "b"⟩, ⟨2, some 1, ""⟩] := by
  decide
example :
    extraer_texto (Except.error ()) ⟨"all", ModoTexto.linea, false⟩ =
      Except.error () := by decide

/-! ## Writing tables (`guardar_tablas_excel`) and the batch loop of `main` -/

/-- Default of `--separar-hojas` in `parsear_argumentos`:
`action="store_true", default=False`. -/
def separar_hojas_default : Bool := false

/-- Height (row count) of a frame; the extraction invariant keeps all columns of
one frame the same length. -/
def alturaFrame (df : List Columna) : Nat := ((df.head?).map (fun c => c.celdas.length)).getD 0

/-- Column names of `pd.concat(tablas)`: union in order of first appearance. -/
def unionNombres (dfs : List (List Columna)) : List String :=
  (dfs.flatMap (fun df => df.map (fun c => c.nombre))).foldl
    (fun acc n => if n ∈ acc then acc else acc ++ [n]) []

def buscarColumna (df : List Columna) (n : String) : Option Columna :=
  df.find? (fun c => c.nombre = n)

/-- `pd.concat(tablas, ignore_index=True)`: frames are stacked; a frame lacking a
column contributes nulls for it.  (The dtype of a stacked column is taken from the
first frame that has it; no claim depends on concatenated dtypes.) -/
def concatFrames (dfs : List (List Columna)) : List Columna :=
  (unionNombres dfs).map (fun n =>
    { nombre := n
      dtype := (((dfs.filterMap (fun df => buscarColumna df n)).head?).map
        (fun c => c.dtype)).getD Dtype.objectD
      celdas := dfs.flatMap (fun df =>
        match buscarColumna df n with
        | some c => c.celdas
        | none => List.replicate (alturaFrame df) Celda.nula) })

/-- `guardar_tablas_excel` up to the physical `.xlsx` serialisation: the list of
(sheet name, frame) pairs written.  Every table first goes through
`auto_convertir_tipos`; with `separar_hojas` each table gets sheet `Tabla_i`
(name cut to 31 characters), otherwise everything is concatenated into the single
sheet `Datos`. -/
def guardar_tablas_excel (tablas : List (List Columna)) (separar_hojas : Bool) :
    List (String × List Columna) :=
  let convertidas := tablas.map auto_convertir_tipos
  if separar_hojas then
    convertidas.enum.map (fun p =>
      (⟨("Tabla_" ++ toString (p.1 + 1)).data.take 31⟩, p.2))
  else
    [("Datos", concatFrames convertidas)]

/-- The batch loop of `main` (lines 551-561): each file maps to the outcome of its
`procesar_pdf` call, supplied by the environment (`.ok ruta` = an output file was
written at `ruta`, `.error ()` = the call raised).  The `try/except Exception`
inside the loop records the failing file name in `errores` and continues, so the
loop always returns normally with the outputs written and the failure names; the
summary prints `errores.length`. -/
def pasoBatch (acc : List String × List String) (a : String × Except Unit String) :
    List String × List String :=
  match a.2 with
  | Except.ok salida => (acc.1 ++ [salida], acc.2)
  | Except.error _ => (acc.1, acc.2 ++ [a.1])

def bucle_batch (archivos : List (String × Except Unit String)) :
    Except Unit (List String × List String) :=
  Except.ok (archivos.foldl pasoBatch ([], []))

/-! ### Claim-support definitions -/

/-- The first template of `_FORMATOS_FECHA` that parses `v` decides the result `r`:
either every template fails and `r` is `none`, or some template at position `i`
succeeds, all earlier ones fail, and `r` is its parse. -/
def primeraPlantillaGana (v : String) (r : Option Fecha) : Prop :=
  (r = none ∧ ∀ fmt ∈ _FORMATOS_FECHA, strptimeFecha v fmt = none) ∨
  (∃ (i : Nat) (f : Fecha), (_FORMATOS_FECHA.map (strptimeFecha v))[i]? = some (some f) ∧
    (∀ j, j < i → (_FORMATOS_FECHA.map (strptimeFecha v))[j]? = some (none : Option Fecha)) ∧
    r = some f)

/-- The stripped string opens with a run of exactly four digits (the shape of an
ISO date's leading 4-digit year). -/
def empiezaConAnio4 (s : String) : Bool :=
  ((pyStripL s.data).takeWhile Char.isDigit).length = 4

/-- A selector part the claim allows: a page number, or a hyphenated range of two
page numbers (after stripping). -/
def parteBienFormada (p : List Char) : Bool :=
  let q := pyStripL p
  (!q.isEmpty && q.all Char.isDigit) ||
  (q.contains '-' &&
    (let ini := q.takeWhile (fun c => c ≠ '-')
     let fin := (q.dropWhile (fun c => c ≠ '-')).tail
     !ini.isEmpty && ini.all Char.isDigit && !fin.isEmpty && fin.all Char.isDigit))

/-- A selector string made of comma-separated page numbers and hyphenated ranges. -/
def selectorBienFormado (s : String) : Bool :=
  (splitEn ',' s.data).all parteBienFormada

/-- A 10-value text column where exactly 7 values parse as dates. -/
def colFechas7de10 : Columna :=
  ⟨"F", Dtype.objectD,
   [Celda.texto "01/02/2024", Celda.texto "15/06/2023", Celda.texto "31/12/2022",
    Celda.texto "03/04/2024", Celda.texto "10-10-2020", Celda.texto "7/8/99",
    Celda.texto "28/02/2021", Celda.texto "abc", Celda.texto "x-y",
    Celda.texto "32/13/2024"]⟩

/-- A 10-value text column where only 5 values parse as dates (and none as
numbers). -/
def colFechas5de10 : Columna :=
  ⟨"G", Dtype.objectD,
   [Celda.texto "01/02/2024", Celda.texto "15/06/2023", Celda.texto "31/12/2022",
    Celda.texto "03/04/2024", Celda.texto "10-10-2020", Celda.texto "abc",
    Celda.texto "x-y", Celda.texto "zz", Celda.texto "total:",
    Celda.texto "32/13/2024"]⟩

/-- Two one-column tables used to exercise the sheet-separation default. -/
def tablaA : List Columna := [⟨"A", Dtype.objectD, [Celda.texto "x"]⟩]

def tablaB : List Columna := [⟨"B", Dtype.objectD, [Celda.texto "y"]⟩]

/-- The page-index set invariant: sorted strictly ascending and inside `[0, N)`. -/
def invarianteIndices (N : Nat) (l : List Int) : Prop :=
  l.Sorted (· < ·) ∧ ∀ x ∈ l, 0 ≤ x ∧ x < (N : Int)

/-- Three batch files of which the second raises. -/
def ejemplo3 : List (String × Except Unit String) :=
  [("a.pdf", Except.ok "salida/a.xlsx"), ("b.pdf", Except.error ()),
   ("c.pdf", Except.ok "salida/c.xlsx")]

/-! ## Helper lemmas -/

theorem pasoBatch_foldl (archivos : List (String × Except Unit String))
    (s e : List String) :
    archivos.foldl pasoBatch (s, e) =
      (s ++ archivos.filterMap (fun a => a.2.toOption),
       e ++ (archivos.filter (fun a => a.2.toOption.isNone)).map Prod.fst) := by
  induction archivos generalizing s e with
  | nil => simp
  | cons a t ih =>
    obtain ⟨n, r⟩ := a
    cases r with
    | ok salida => simp [pasoBatch, ih, Except.toOption]
    | error _ => simp [pasoBatch, ih, Except.toOption]

/-! ## Claims -/

theorem primeroAlguno_spec {α : Type} (L : List (Option α)) :
    (primeroAlguno L = none ∧ ∀ x ∈ L, x = none) ∨
    (∃ (i : Nat) (a : α), L[i]? = some (some a) ∧
      (∀ j, j < i → L[j]? = some (none : Option α)) ∧ primeroAlguno L = some a) := by
  induction L with
  | nil => left; exact ⟨rfl, by simp⟩
  | cons x t ih =>
    cases x with
    | some a =>
      right
      exact ⟨0, a, by simp, fun j hj => absurd hj (Nat.not_lt_zero j), rfl⟩
    | none =>
      rcases ih with ⟨hn, hall⟩ | ⟨i, a, hi, hj, hr⟩
      · left
        refine ⟨hn, ?_⟩
        intro x hx
        rcases List.mem_cons.mp hx with h | h
        · exact h
        · exact hall x h
      · right
        refine ⟨i + 1, a, by simpa using hi, ?_, by simpa [primeroAlguno] using hr⟩
        intro j hjlt
        cases j with
        | zero => simp
        | succ k => simpa using hj k (Nat.lt_of_succ_lt_succ hjlt)

theorem patron_match_anio4_falso (l : List Char)
    (h : (l.takeWhile Char.isDigit).length = 4) : _PATRON_FECHA_match l = false := by
  unfold _PATRON_FECHA_match
  cases hd : l.dropWhile Char.isDigit with
  | nil => rfl
  | cons s1 r2 =>
    cases hd2 : r2.dropWhile Char.isDigit with
    | nil => simp [hd2]
    | cons s2 r4 => simp [hd2, h]

theorem parsear_fecha_anio4_none (s : String) (h : empiezaConAnio4 s = true) :
    _parsear_fecha s = none := by
  have h4 : ((pyStripL s.data).takeWhile Char.isDigit).length = 4 := by
    simpa [empiezaConAnio4] using h
  have hm := patron_match_anio4_falso (pyStripL s.data) h4
  unfold _parsear_fecha
  simp only [pyStrip, hm]
  rfl

theorem mem_insertarOrdenado (p x : Int) (l : List Int) :
    x ∈ insertarOrdenado p l ↔ x = p ∨ x ∈ l := by
  induction l with
  | nil => simp [insertarOrdenado]
  | cons q r ih =>
    by_cases h1 : p < q
    · simp [insertarOrdenado, h1]
    · by_cases h2 : p = q
      · subst h2
        simp [insertarOrdenado, h1]
      · simp [insertarOrdenado, h1, h2, ih]
        tauto

theorem insertarOrdenado_sorted (p : Int) (l : List Int) (h : l.Sorted (· < ·)) :
    (insertarOrdenado p l).Sorted (· < ·) := by
  induction l with
  | nil => simp [insertarOrdenado]
  | cons q r ih =>
    rw [List.sorted_cons] at h
    by_cases h1 : p < q
    · unfold insertarOrdenado
      rw [if_pos h1, List.sorted_cons]
      refine ⟨?_, List.sorted_cons.mpr h⟩
      intro b hb
      rcases List.mem_cons.mp hb with rfl | hb'
      · exact h1
      · exact lt_trans h1 (h.1 b hb')
    · by_cases h2 : p = q
      · unfold insertarOrdenado
        rw [if_neg h1, if_pos h2]
        exact List.sorted_cons.mpr h
      · unfold insertarOrdenado
        rw [if_neg h1, if_neg h2, List.sorted_cons]
        have hqp : q < p := lt_of_le_of_ne (not_lt.mp h1) (fun he => h2 he.symm)
        refine ⟨?_, ih h.2⟩
        intro b hb
        rcases (mem_insertarOrdenado p b r).mp hb with rfl | hb'
        · exact hqp
        · exact h.1 b hb'

theorem digit_no_espacio (c : Char) (h : c.isDigit = true) : esEspacio c = false := by
  by_contra hx
  rw [Bool.not_eq_false] at hx
  simp only [esEspacio, Bool.or_eq_true, decide_eq_true_eq] at hx
  rcases hx with ((((rfl | rfl) | rfl) | rfl) | rfl) | rfl <;> exact absurd h (by decide)

theorem dropWhile_esEspacio_id (l : List Char) (h : ∀ c ∈ l, esEspacio c = false) :
    l.dropWhile esEspacio = l := by
  cases l with
  | nil => rfl
  | cons c r => simp [List.dropWhile_cons, h c (by simp)]

theorem pyStripL_sin_espacios (l : List Char) (h : ∀ c ∈ l, esEspacio c = false) :
    pyStripL l = l := by
  unfold pyStripL
  rw [dropWhile_esEspacio_id l h,
    dropWhile_esEspacio_id l.reverse (fun c hc => h c (List.mem_reverse.mp hc)),
    List.reverse_reverse]

theorem intDeCadena_digitos (l : List Char) (h1 : l ≠ []) (h2 : l.all Char.isDigit = true) :
    intDeCadena l = some (digitosANat l : Int) := by
  have hstrip : pyStripL l = l :=
    pyStripL_sin_espacios l (fun c hc => digit_no_espacio c (List.all_eq_true.mp h2 c hc))
  cases hl : l with
  | nil => exact absurd hl h1
  | cons c r =>
    have hc : c.isDigit = true := List.all_eq_true.mp h2 c (by rw [hl]; simp)
    have hne1 : ¬ c = '-' := fun he => absurd hc (by rw [he]; decide)
    have hne2 : ¬ c = '+' := fun he => absurd hc (by rw [he]; decide)
    unfold intDeCadena
    rw [hl] at hstrip
    rw [hstrip]
    dsimp only
    rw [if_neg hne1, if_neg hne2, if_pos (by rw [hl] at h2; exact h2)]

theorem digitos_sin_guion (q : List Char) (h : q.all Char.isDigit = true) :
    q.contains '-' = false := by
  by_contra hx
  rw [Bool.not_eq_false] at hx
  have hmem : '-' ∈ q := by simpa using hx
  exact absurd (List.all_eq_true.mp h '-' hmem) (by decide)

theorem insertar_invariante {N : Nat} {l : List Int} (h : invarianteIndices N l)
    (p : Int) (h0 : 0 ≤ p) (hN : p < (N : Int)) :
    invarianteIndices N (insertarOrdenado p l) := by
  refine ⟨insertarOrdenado_sorted p l h.1, ?_⟩
  intro x hx
  rcases (mem_insertarOrdenado p x l).mp hx with rfl | hx'
  · exact ⟨h0, hN⟩
  · exact h.2 x hx'

theorem foldl_rango_invariante (N : Nat) (ps : List Int) (acc : List Int)
    (h : invarianteIndices N acc) :
    invarianteIndices N (ps.foldl
      (fun s p => if 1 ≤ p ∧ p ≤ (N : Int) then insertarOrdenado (p - 1) s else s) acc) := by
  induction ps generalizing acc with
  | nil => exact h
  | cons p t ih =>
    rw [List.foldl_cons]
    apply ih
    by_cases hp : 1 ≤ p ∧ p ≤ (N : Int)
    · rw [if_pos hp]
      exact insertar_invariante h (p - 1) (by omega) (by omega)
    · rw [if_neg hp]
      exact h

theorem procesarParte_invariante (N : Nat) (acc : List Int) (p : List Char)
    (h : invarianteIndices N acc) (acc' : List Int)
    (hok : procesarParte N acc p = Except.ok acc') :
    invarianteIndices N acc' := by
  unfold procesarParte at hok
  split at hok
  · split at hok
    · injection hok with hok
      subst hok
      exact foldl_rango_invariante N _ acc h
    · exact absurd hok (by simp)
  · split at hok
    · injection hok with hok
      subst hok
      split
      · rename_i hp
        exact insertar_invariante h _ (by omega) (by omega)
      · exact h
    · exact absurd hok (by simp)

theorem procesarParte_ok (N : Nat) (acc : List Int) (p : List Char)
    (hwf : parteBienFormada p = true) :
    ∃ acc', procesarParte N acc p = Except.ok acc' := by
  unfold parteBienFormada at hwf
  rw [Bool.or_eq_true] at hwf
  rcases hwf with hdig | hrango
  · rw [Bool.and_eq_true] at hdig
    obtain ⟨hne, hall⟩ := hdig
    have hne' : pyStripL p ≠ [] := by
      intro he
      rw [he] at hne
      exact absurd hne (by decide)
    have hnc : (pyStripL p).contains '-' = false := digitos_sin_guion _ hall
    unfold procesarParte
    rw [hnc]
    simp only [Bool.false_eq_true, if_false]
    rw [intDeCadena_digitos (pyStripL p) hne' hall]
    exact ⟨_, rfl⟩
  · rw [Bool.and_eq_true] at hrango
    obtain ⟨hcont, hresto⟩ := hrango
    rw [Bool.and_eq_true] at hresto
    obtain ⟨hresto, hfin_dig⟩ := hresto
    rw [Bool.and_eq_true] at hresto
    obtain ⟨hresto, hfin_ne⟩ := hresto
    rw [Bool.and_eq_true] at hresto
    obtain ⟨hini_ne, hini_dig⟩ := hresto
    unfold procesarParte
    rw [hcont]
    simp only [if_true]
    rw [intDeCadena_digitos _ (by simpa using hini_ne) hini_dig,
      intDeCadena_digitos _ (by simpa using hfin_ne) hfin_dig]
    exact ⟨_, rfl⟩

theorem foldlM_partes_ok (N : Nat) (partes : List (List Char)) (acc : List Int)
    (hwf : partes.all parteBienFormada = true) (hinv : invarianteIndices N acc) :
    ∃ res, partes.foldlM (procesarParte N) acc = Except.ok res ∧ invarianteIndices N res := by
  induction partes generalizing acc with
  | nil => exact ⟨acc, rfl, hinv⟩
  | cons p t ih =>
    rw [List.all_cons, Bool.and_eq_true] at hwf
    obtain ⟨acc1, hok1⟩ := procesarParte_ok N acc p hwf.1
    have hinv1 := procesarParte_invariante N acc p hinv acc1 hok1
    obtain ⟨res, hok, hres⟩ := ih acc1 hwf.2 hinv1
    refine ⟨res, ?_, hres⟩
    rw [List.foldlM_cons, hok1]
    simpa using hok

theorem rango_completo_invariante (N : Nat) :
    invarianteIndices N ((List.range N).map (fun i : Nat => (i : Int))) := by
  constructor
  · refine List.Pairwise.map (fun i : Nat => (i : Int)) ?_ (List.pairwise_lt_range N)
    intro a b hab
    dsimp only
    exact_mod_cast hab
  · intro x hx
    simp only [List.mem_map, List.mem_range] at hx
    obtain ⟨i, hi, rfl⟩ := hx
    exact ⟨Int.ofNat_nonneg i, by exact_mod_cast hi⟩

/-- C5: for every selector made of comma-separated page numbers and hyphenated
ranges, the resolver returns (without raising) a strictly ascending,
duplicate-free list of indices inside `[0, N)` — out-of-range numbers are simply
dropped — and `"all"` (case-insensitive, stripped) yields exactly `[0, …, N-1]`. -/
theorem c5_rango_paginas (s : String) (N : Nat) :
    (selectorBienFormado s = true →
      ∃ l, parse_rango_paginas s N = Except.ok l ∧
        l.Sorted (· < ·) ∧ l.Nodup ∧ ∀ x ∈ l, 0 ≤ x ∧ x < (N : Int)) ∧
    (minusculas (pyStripL s.data) = "all".data →
      parse_rango_paginas s N =
        Except.ok ((List.range N).map (fun i : Nat => (i : Int)))) := by
  constructor
  · intro hwf
    unfold parse_rango_paginas
    by_cases hall : minusculas (pyStripL s.data) = "all".data
    · rw [if_pos hall]
      have h := rango_completo_invariante N
      exact ⟨_, rfl, h.1, h.1.nodup, h.2⟩
    · rw [if_neg hall]
      obtain ⟨res, hok, hres⟩ := foldlM_partes_ok N (splitEn ',' s.data) []
        (by simpa [selectorBienFormado] using hwf) ⟨by simp, by simp⟩
      exact ⟨res, hok, hres.1, hres.1.nodup, hres.2⟩
  · intro hall
    unfold parse_rango_paginas
    rw [if_pos hall]

/-- C5 witness: a mixed selector with an out-of-range page, and a padded
upper-case `"All"`. -/
theorem c5_testigo :
    (∃ l, parse_rango_paginas "2-4,9,1" 5 = Except.ok l ∧
      l.Sorted (· < ·) ∧ l.Nodup ∧ ∀ x ∈ l, 0 ≤ x ∧ x < ((5 : Nat) : Int)) ∧
    parse_rango_paginas " All " 4 = Except.ok [0, 1, 2, 3] := by
  constructor
  · exact (c5_rango_paginas "2-4,9,1" 5).1 (by decide)
  · have h := (c5_rango_paginas " All " 4).2 (by decide)
    rw [h]
    decide

/-- C2 counterexample: the template list has ten entries, not eleven. -/
theorem c2_contraejemplo :
    _FORMATOS_FECHA.length = 10 ∧ ¬ _FORMATOS_FECHA.length = 11 := by decide

/-- C2 (amended): the date detector attempts template parsing only when the
trimmed string matches the shape pattern (other strings parse to nothing); when
the shape matches, the TEN date-format templates are tried in a fixed priority
order where day-first precedes month-first at each year width, and the first
template that parses wins — the ambiguous `"03/04/2024"` is therefore read
day-first as 3 April 2024. -/
theorem c2_orden_plantillas :
    (∀ s : String, ¬ _PATRON_FECHA_match (pyStrip s).data = true → _parsear_fecha s = none) ∧
    _FORMATOS_FECHA.length = 10 ∧
    List.indexOf "%d/%m/%Y" _FORMATOS_FECHA < List.indexOf "%m/%d/%Y" _FORMATOS_FECHA ∧
    List.indexOf "%d-%m-%Y" _FORMATOS_FECHA < List.indexOf "%m-%d-%Y" _FORMATOS_FECHA ∧
    List.indexOf "%d/%m/%y" _FORMATOS_FECHA < List.indexOf "%m/%d/%y" _FORMATOS_FECHA ∧
    List.indexOf "%d-%m-%y" _FORMATOS_FECHA < List.indexOf "%m-%d-%y" _FORMATOS_FECHA ∧
    (∀ s : String, _PATRON_FECHA_match (pyStrip s).data = true →
      primeraPlantillaGana (pyStrip s) (_parsear_fecha s)) ∧
    _parsear_fecha "03/04/2024" = some ⟨2024, 4, 3⟩ := by
  refine ⟨?_, by decide, by decide, by decide, by decide, by decide, ?_, by decide⟩
  · intro s h
    unfold _parsear_fecha
    rw [if_neg h]
  · intro s h
    unfold _parsear_fecha
    rw [if_pos h]
    rcases primeroAlguno_spec (_FORMATOS_FECHA.map (strptimeFecha (pyStrip s))) with
      ⟨hn, hall⟩ | ⟨i, f, hi, hj, hr⟩
    · left
      refine ⟨hn, ?_⟩
      intro fmt hfmt
      exact hall _ (List.mem_map_of_mem (strptimeFecha (pyStrip s)) hfmt)
    · right
      exact ⟨i, f, hi, hj, hr⟩

/-- C2 witness: the gate branch at a shapeless string, and the template-order
branch at the ambiguous `"03/04/2024"`. -/
theorem c2_testigo :
    _parsear_fecha "sin fecha" = none ∧
    primeraPlantillaGana (pyStrip "03/04/2024") (_parsear_fecha "03/04/2024") :=
  ⟨c2_orden_plantillas.1 "sin fecha" (by decide),
   c2_orden_plantillas.2.2.2.2.2.2.1 "03/04/2024" (by decide)⟩

/-- C3 counterexample: no string whose stripped form opens with a 4-digit year
run is ever parsed — such strings fail the shape pattern `^\d{1,2}[/\-]…`
before any template (in particular the ISO ones) is tried, so no ISO-form
string with a 4-digit leading year yields a date. -/
theorem c3_contraejemplo :
    ¬ ∃ s : String, empiezaConAnio4 s = true ∧ (_parsear_fecha s).isSome = true := by
  rintro ⟨s, h4, hsome⟩
  rw [parsear_fecha_anio4_none s h4] at hsome
  simp at hsome

/-- C3 (amended): the template list does include the ISO templates `%Y-%m-%d`
and `%Y/%m/%d`, but they are unreachable: every string whose stripped form
starts with four digits (any ISO-form string with a 4-digit leading year) fails
the shape gate and parses to nothing. -/
theorem c3_plantillas_iso :
    "%Y-%m-%d" ∈ _FORMATOS_FECHA ∧ "%Y/%m/%d" ∈ _FORMATOS_FECHA ∧
    ∀ s : String, empiezaConAnio4 s = true → _parsear_fecha s = none :=
  ⟨by decide, by decide, parsear_fecha_anio4_none⟩

/-- C3 witness: the ISO-form `"2024-03-04"`. -/
theorem c3_testigo :
    empiezaConAnio4 "2024-03-04" = true ∧ _parsear_fecha "2024-03-04" = none :=
  ⟨by decide, c3_plantillas_iso.2.2 "2024-03-04" (by decide)⟩

/-- C10: `auto_convertir_tipos` works on a copy — after the call every frame the
caller already held is unchanged on the heap, the result is a fresh reference
holding the converted frame — and every column whose dtype is not `object` is
returned exactly as it was. -/
theorem c10_sin_mutacion (heap : List (List Columna)) (r : Nat) (df : List Columna)
    (hr : heap[r]? = some df) :
    (∀ i, i < heap.length → ((auto_convertir_tipos_ref heap r).1)[i]? = heap[i]?) ∧
    ((auto_convertir_tipos_ref heap r).1)[(auto_convertir_tipos_ref heap r).2]? =
      some (auto_convertir_tipos df) ∧
    (∀ (g : List Columna) (i : Nat) (c : Columna), g[i]? = some c →
      c.dtype ≠ Dtype.objectD → (auto_convertir_tipos g)[i]? = some c) := by
  refine ⟨?_, ?_, ?_⟩
  · intro i hi
    simp only [auto_convertir_tipos_ref, hr]
    rw [List.getElem?_append]
    simp [hi]
  · simp only [auto_convertir_tipos_ref, hr]
    simp
  · intro g i c hic hdt
    have hcc : convertirColumna c = c := by
      unfold convertirColumna
      rw [if_pos hdt]
    simp [auto_convertir_tipos, hic, hcc]

/-- C10 witness data: a heap holding one frame with a single non-text column. -/
def heap0 : List (List Columna) := [[⟨"N", Dtype.otro, [Celda.numero ⟨1, 0⟩]⟩]]

/-- C10 witness: on `heap0` the caller's frame is untouched and the fresh
reference holds the converted frame (equal to the original, its one column being
non-text). -/
theorem c10_testigo :
    ((auto_convertir_tipos_ref heap0 0).1)[0]? = heap0[0]? ∧
    ((auto_convertir_tipos_ref heap0 0).1)[(auto_convertir_tipos_ref heap0 0).2]? =
      some (auto_convertir_tipos [⟨"N", Dtype.otro, [Celda.numero ⟨1, 0⟩]⟩]) :=
  ⟨(c10_sin_mutacion heap0 0 [⟨"N", Dtype.otro, [Celda.numero ⟨1, 0⟩]⟩] (by decide)).1
      0 (by decide),
   (c10_sin_mutacion heap0 0 [⟨"N", Dtype.otro, [Celda.numero ⟨1, 0⟩]⟩] (by decide)).2.1⟩

/-- C1: column-level inference: a text (`object`) column with a non-empty sample
of non-blank values is promoted to the date type exactly when at least 60% of the
sample parses as dates and at least one does; otherwise it is promoted to numeric
under the same threshold on number parses; otherwise it is returned unchanged.
In a promoted column every cell is replaced by its parse, a cell that fails to
parse becoming null. -/
theorem c1_promocion_columna (c : Columna)
    (hdt : c.dtype = Dtype.objectD) (hm : muestra c.celdas ≠ []) :
    ((convertirColumna c).dtype = Dtype.datetime64 ↔
      (10 * cuentaFechas (muestra c.celdas) ≥ 6 * (muestra c.celdas).length ∧
        1 ≤ cuentaFechas (muestra c.celdas))) ∧
    ((convertirColumna c).dtype = Dtype.float64 ↔
      (¬ (10 * cuentaFechas (muestra c.celdas) ≥ 6 * (muestra c.celdas).length ∧
          1 ≤ cuentaFechas (muestra c.celdas)) ∧
        (10 * cuentaNumeros (muestra c.celdas) ≥ 6 * (muestra c.celdas).length ∧
          1 ≤ cuentaNumeros (muestra c.celdas)))) ∧
    ((10 * cuentaFechas (muestra c.celdas) ≥ 6 * (muestra c.celdas).length ∧
        1 ≤ cuentaFechas (muestra c.celdas)) →
      (convertirColumna c).celdas = c.celdas.map (fun x => coerceNs (celdaAFecha x)) ∧
      ∀ x ∈ c.celdas, _parsear_fecha (celdaComoCadena x) = none →
        coerceNs (celdaAFecha x) = Celda.nula) ∧
    ((¬ (10 * cuentaFechas (muestra c.celdas) ≥ 6 * (muestra c.celdas).length ∧
          1 ≤ cuentaFechas (muestra c.celdas)) ∧
        (10 * cuentaNumeros (muestra c.celdas) ≥ 6 * (muestra c.celdas).length ∧
          1 ≤ cuentaNumeros (muestra c.celdas))) →
      (convertirColumna c).celdas = c.celdas.map celdaANumero ∧
      ∀ x ∈ c.celdas, _parsear_numero (celdaComoCadena x) = none →
        celdaANumero x = Celda.nula) ∧
    ((¬ (10 * cuentaFechas (muestra c.celdas) ≥ 6 * (muestra c.celdas).length ∧
          1 ≤ cuentaFechas (muestra c.celdas)) ∧
      ¬ (10 * cuentaNumeros (muestra c.celdas) ≥ 6 * (muestra c.celdas).length ∧
          1 ≤ cuentaNumeros (muestra c.celdas))) →
      convertirColumna c = c) := by
  have hfalla_fecha : ∀ x : Celda, _parsear_fecha (celdaComoCadena x) = none →
      coerceNs (celdaAFecha x) = Celda.nula := by
    intro x hnone
    unfold celdaAFecha
    by_cases hb : pyStripL (celdaComoCadena x).data ≠ []
    · rw [if_pos hb, hnone]
      rfl
    · rw [if_neg hb]
      rfl
  have hfalla_numero : ∀ x : Celda, _parsear_numero (celdaComoCadena x) = none →
      celdaANumero x = Celda.nula := by
    intro x hnone
    unfold celdaANumero
    by_cases hb : pyStripL (celdaComoCadena x).data ≠ []
    · rw [if_pos hb, hnone]
    · rw [if_neg hb]
  have hrep : convertirColumna c =
      (if 10 * cuentaFechas (muestra c.celdas) ≥ 6 * (muestra c.celdas).length ∧
          1 ≤ cuentaFechas (muestra c.celdas) then
        { c with dtype := Dtype.datetime64,
                 celdas := c.celdas.map (fun x => coerceNs (celdaAFecha x)) }
      else if 10 * cuentaNumeros (muestra c.celdas) ≥ 6 * (muestra c.celdas).length ∧
          1 ≤ cuentaNumeros (muestra c.celdas) then
        { c with dtype := Dtype.float64, celdas := c.celdas.map celdaANumero }
      else c) := by
    unfold convertirColumna
    rw [if_neg (by simp [hdt]), if_neg (by simp [List.isEmpty_iff]; exact hm)]
  rw [hrep]
  by_cases hF : (10 * cuentaFechas (muestra c.celdas) ≥ 6 * (muestra c.celdas).length ∧
      1 ≤ cuentaFechas (muestra c.celdas))
  · rw [if_pos hF]
    refine ⟨by simp [hF], by simp [hF], fun _ => ⟨rfl, fun x _ => hfalla_fecha x⟩,
      fun h => absurd hF h.1, fun h => absurd hF h.1⟩
  · rw [if_neg hF]
    by_cases hN : (10 * cuentaNumeros (muestra c.celdas) ≥ 6 * (muestra c.celdas).length ∧
        1 ≤ cuentaNumeros (muestra c.celdas))
    · rw [if_pos hN]
      refine ⟨by simp [hF], by simp [hF, hN], fun h => absurd h hF,
        fun _ => ⟨rfl, fun x _ => hfalla_numero x⟩, fun h => absurd hN h.2⟩
    · rw [if_neg hN]
      refine ⟨by simp [hdt, hF], by simp [hdt, hF, hN], fun h => absurd h hF,
        fun h => absurd h.2 hN, fun _ => rfl⟩

/-- C1 witness: the 7-of-10 date column is promoted with the three failures made
null; the 5-of-10 column is returned unchanged (ratio 0.5 < 0.6, and no value is
numeric). -/
theorem c1_testigo :
    (convertirColumna colFechas7de10).dtype = Dtype.datetime64 ∧
    (convertirColumna colFechas7de10).celdas =
      [Celda.fecha ⟨2024, 2, 1⟩, Celda.fecha ⟨2023, 6, 15⟩, Celda.fecha ⟨2022, 12, 31⟩,
       Celda.fecha ⟨2024, 4, 3⟩, Celda.fecha ⟨2020, 10, 10⟩, Celda.fecha ⟨1999, 8, 7⟩,
       Celda.fecha ⟨2021, 2, 28⟩, Celda.nula, Celda.nula, Celda.nula] ∧
    convertirColumna colFechas5de10 = colFechas5de10 :=
  ⟨(c1_promocion_columna colFechas7de10 rfl (by decide)).1.mpr (by decide),
   by decide,
   (c1_promocion_columna colFechas5de10 rfl (by decide)).2.2.2.2 (by decide)⟩

/-- C6: per-cell formatting: a non-blank string cell is tried as a date first and
as a number only when the date detector fails, the value being replaced on the
first success; the final type then fixes the display — dates `DD/MM/YYYY`
centred, numbers thousands-grouped right-aligned with two decimals exactly when
the value is not an integer (`esEntero` coincides with the value being an integral
rational); everything else is left unchanged. -/
theorem c6_formato_celdas :
    (∀ s : String, pyStripL s.data ≠ [] →
      (∀ f, _parsear_fecha (pyStrip s) = some f →
        formatearCelda (ValorHoja.cadena s) =
          ⟨ValorHoja.fechaV f, some "DD/MM/YYYY", some "center"⟩) ∧
      (_parsear_fecha (pyStrip s) = none →
        ∀ d, _parsear_numero (pyStrip s) = some d →
          formatearCelda (ValorHoja.cadena s) =
            ⟨ValorHoja.numeroV d,
             some (if d.esEntero then "#,##0" else "#,##0.00"), some "right"⟩) ∧
      (_parsear_fecha (pyStrip s) = none → _parsear_numero (pyStrip s) = none →
        formatearCelda (ValorHoja.cadena s) = ⟨ValorHoja.cadena s, none, none⟩)) ∧
    (∀ f, formatearCelda (ValorHoja.fechaV f) =
      ⟨ValorHoja.fechaV f, some "DD/MM/YYYY", some "center"⟩) ∧
    (∀ d, formatearCelda (ValorHoja.numeroV d) =
      ⟨ValorHoja.numeroV d, some (if d.esEntero then "#,##0" else "#,##0.00"),
       some "right"⟩) ∧
    formatearCelda ValorHoja.vacio = ⟨ValorHoja.vacio, none, none⟩ ∧
    (∀ d : Decimal, d.esEntero = true ↔ ∃ k : Int, Decimal.valor d = (k : ℚ)) := by
  have h10 : ∀ e : Nat, ((10 : ℚ) ^ e) ≠ 0 := fun e => pow_ne_zero _ (by norm_num)
  refine ⟨?_, ?_, ?_, rfl, ?_⟩
  · intro s hs
    refine ⟨?_, ?_, ?_⟩
    · intro f hf
      simp only [formatearCelda]
      rw [if_pos (show (pyStrip s).data ≠ [] from hs), hf]
      rfl
    · intro hnofecha d hd
      simp only [formatearCelda]
      rw [if_pos (show (pyStrip s).data ≠ [] from hs), hnofecha, hd]
      cases he : d.esEntero <;> simp [aplicarFormatoTipo, he]
    · intro hnofecha hnonum
      simp only [formatearCelda]
      rw [if_pos (show (pyStrip s).data ≠ [] from hs), hnofecha, hnonum]
      rfl
  · intro f
    rfl
  · intro d
    unfold formatearCelda aplicarFormatoTipo
    cases he : d.esEntero <;> simp [he]
  · intro d
    constructor
    · intro h
      have hdvd : ((10 : Int) ^ d.exp) ∣ d.mantisa :=
        Int.dvd_of_emod_eq_zero (by simpa [Decimal.esEntero] using h)
      obtain ⟨k, hk⟩ := hdvd
      refine ⟨k, ?_⟩
      rw [Decimal.valor, hk]
      push_cast
      field_simp
    · rintro ⟨k, hk⟩
      rw [Decimal.valor] at hk
      have hm : (d.mantisa : ℚ) = (k : ℚ) * (10 : ℚ) ^ d.exp := by
        field_simp at hk
        linarith
      have hmz : d.mantisa = k * 10 ^ d.exp := by exact_mod_cast hm
      simp [Decimal.esEntero, hmz, Int.mul_emod_left]

/-- C6 witness: a date string, a non-integral number string, and a plain word. -/
theorem c6_testigo :
    formatearCelda (ValorHoja.cadena " 03/04/2024 ") =
      ⟨ValorHoja.fechaV ⟨2024, 4, 3⟩, some "DD/MM/YYYY", some "center"⟩ ∧
    formatearCelda (ValorHoja.cadena "1,234.56") =
      ⟨ValorHoja.numeroV ⟨123456, 2⟩, some "#,##0.00", some "right"⟩ ∧
    formatearCelda (ValorHoja.cadena "hola") =
      ⟨ValorHoja.cadena "hola", none, none⟩ :=
  ⟨(c6_formato_celdas.1 " 03/04/2024 " (by decide)).1 ⟨2024, 4, 3⟩ (by decide),
   by
     have h := (c6_formato_celdas.1 "1,234.56" (by decide)).2.1 (by decide)
       ⟨123456, 2⟩ (by decide)
     simpa [Decimal.esEntero] using h,
   (c6_formato_celdas.1 "hola" (by decide)).2.2 (by decide) (by decide)⟩

/-- C4: the number detector misreads `"140,000"`.  The code's own comment
(`# Número entero con comas como miles: 140,000`) and the spec both intend the
comma-grouped-integer reading 140000.0, but the European-format branch
`^-?[\d.]+,\d+$` is tested first, matches, and reads the comma as a decimal
comma, producing 140.0.  The other documented examples behave as specified. -/
theorem c4_fallo_140000 :
    _parsear_numero "140,000" = some ⟨140000, 3⟩ ∧
    Decimal.valor ⟨140000, 3⟩ = 140 ∧
    (140 : ℚ) ≠ 140000 ∧
    _parsear_numero "1,234.56" = some ⟨123456, 2⟩ ∧
    Decimal.valor ⟨123456, 2⟩ = 1234.56 ∧
    _parsear_numero "1.234,56" = some ⟨123456, 2⟩ ∧
    _parsear_numero "42.5" = some ⟨425, 1⟩ ∧
    Decimal.valor ⟨425, 1⟩ = 42.5 :=
  ⟨by decide, by norm_num [Decimal.valor], by norm_num, by decide,
   by norm_num [Decimal.valor], by decide, by decide, by norm_num [Decimal.valor]⟩

/-- C7 counterexample: an exception inside the text extractor (here, raised at the
`pdfplumber.open` boundary) is not caught — `extraer_texto` has no `try/except` —
so it propagates to the caller, contradicting "never propagated" for "any
extraction backend". -/
theorem c7_contraejemplo :
    extraer_texto (Except.error ()) ⟨"all", ModoTexto.linea, false⟩ =
      Except.error () := by decide

/-- C7 (amended): exceptions raised inside the two table-extraction backends are
caught locally and treated as an empty result, never propagated; an exception
raised inside the text extractor, however, propagates to the caller for every
argument configuration. -/
theorem c7_excepciones_backends :
    (∀ llamada : Except Unit (List DFCruda),
      ∃ ts, extraer_tablas_tabula llamada = Except.ok ts) ∧
    (∀ (apertura : Except Unit (List (List TablaCruda))) (ps : String),
      ∃ ts, extraer_tablas_pdfplumber apertura ps = Except.ok ts) ∧
    (∀ args : ArgsTexto, extraer_texto (Except.error ()) args = Except.error ()) := by
  refine ⟨fun llamada => ?_, fun apertura ps => ⟨_, rfl⟩, fun args => rfl⟩
  cases llamada with
  | ok ts => exact ⟨_, rfl⟩
  | error e => exact ⟨[], rfl⟩

/-- C8 counterexample: with the flag left at its default, two tables are written
to a single sheet, not one sheet per table. -/
theorem c8_contraejemplo :
    (guardar_tablas_excel [tablaA, tablaB] separar_hojas_default).length = 1 ∧
    ¬ (guardar_tablas_excel [tablaA, tablaB] separar_hojas_default).length = 2 := by
  decide

/-- C8 (amended): the `--separar-hojas` flag defaults to `False`, which
concatenates every (type-converted) table into the single sheet `Datos`;
supplying the flag writes table `i` to its own sheet `Tabla_i`, the name cut to
31 characters. -/
theorem c8_hojas_separadas :
    separar_hojas_default = false ∧
    (∀ tablas : List (List Columna),
      guardar_tablas_excel tablas false =
        [("Datos", concatFrames (tablas.map auto_convertir_tipos))]) ∧
    (∀ tablas : List (List Columna), (guardar_tablas_excel tablas true).length = tablas.length) ∧
    (∀ (tablas : List (List Columna)) (i : Nat),
      (guardar_tablas_excel tablas true)[i]? =
        (tablas[i]?).map (fun df =>
          (⟨("Tabla_" ++ toString (i + 1)).data.take 31⟩, auto_convertir_tipos df))) := by
  refine ⟨rfl, fun tablas => rfl, fun tablas => by simp [guardar_tablas_excel],
    fun tablas i => ?_⟩
  simp [guardar_tablas_excel, List.getElem?_enum, Option.map_map]
  rfl

/-- C9: the batch loop catches every per-file exception, records the failing file
name, continues with the rest, and always terminates normally with the written
outputs and the failure list; in particular three PDFs of which one raises yield
two outputs and one recorded failure, a summary count of 1. -/
theorem c9_bucle_batch :
    (∀ archivos : List (String × Except Unit String),
      bucle_batch archivos =
        Except.ok (archivos.filterMap (fun a => a.2.toOption),
          (archivos.filter (fun a => a.2.toOption.isNone)).map Prod.fst)) ∧
    bucle_batch ejemplo3 =
      Except.ok (["salida/a.xlsx", "salida/c.xlsx"], ["b.pdf"]) ∧
    (["b.pdf"] : List String).length = 1 := by
  refine ⟨fun archivos => ?_, by decide, rfl⟩
  show Except.ok (archivos.foldl pasoBatch ([], [])) = _
  rw [pasoBatch_foldl]
  simp

end PdfAExcel
